import Mathlib

/-!
Verification of the document-layout and page-composition engine of the
img-pdf application (`src/App.js`).

The embedding models:
* JavaScript number arithmetic on the paths the code uses (division,
  multiplication, subtraction, `>` comparison) as exact extended rationals
  with IEEE-754 special values (`Infinity`, `-Infinity`, `NaN`).  Rounding
  is idealised away: the spec's "within floating tolerance" becomes exact
  equality over `ℚ`.
* The geometric fitter extracted from `generatePDF` (App.js lines 163-180).
* The page composer (App.js lines 162-191), with the per-page HTML string
  abstracted to a structured page description carrying exactly the data the
  template interpolates: geometry, data URI, and the page-break flag.
* The generation pipeline `generatePDF` (App.js lines 113-257) with the
  external collaborators (`FileSystem.readAsStringAsync`,
  `Print.printToFileAsync`) as oracle parameters, plus a control-flow trace
  recording which regions of the function body were reached.
* The registry operations `removeImage`, `moveImageUp`, `moveImageDown`
  (App.js lines 95-111).
-/

/-- A JavaScript number, idealised: finite values are exact rationals, and
the IEEE-754 special values `Infinity`, `-Infinity`, `NaN` are explicit
constructors.  Signed zero is not distinguished (the code never observes it). -/
inductive JsNum where
  | num : ℚ → JsNum
  | posInf : JsNum
  | negInf : JsNum
  | nan : JsNum
deriving DecidableEq, Repr

/-- JavaScript `/` on idealised numbers (IEEE-754 semantics, exact finite
arithmetic, positive zero only). -/
def jsDiv : JsNum → JsNum → JsNum
  | .nan, _ => .nan
  | _, .nan => .nan
  | .num a, .num b =>
      if b = 0 then
        if a = 0 then .nan else if 0 < a then .posInf else .negInf
      else .num (a / b)
  | .num _, .posInf => .num 0
  | .num _, .negInf => .num 0
  | .posInf, .num b => if 0 ≤ b then .posInf else .negInf
  | .negInf, .num b => if 0 ≤ b then .negInf else .posInf
  | .posInf, .posInf => .nan
  | .posInf, .negInf => .nan
  | .negInf, .posInf => .nan
  | .negInf, .negInf => .nan

/-- JavaScript `*` on idealised numbers. -/
def jsMul : JsNum → JsNum → JsNum
  | .nan, _ => .nan
  | _, .nan => .nan
  | .num a, .num b => .num (a * b)
  | .num a, .posInf => if a = 0 then .nan else if 0 < a then .posInf else .negInf
  | .num a, .negInf => if a = 0 then .nan else if 0 < a then .negInf else .posInf
  | .posInf, .num b => if b = 0 then .nan else if 0 < b then .posInf else .negInf
  | .negInf, .num b => if b = 0 then .nan else if 0 < b then .negInf else .posInf
  | .posInf, .posInf => .posInf
  | .posInf, .negInf => .negInf
  | .negInf, .posInf => .negInf
  | .negInf, .negInf => .posInf

/-- JavaScript binary `-` on idealised numbers. -/
def jsSub : JsNum → JsNum → JsNum
  | .nan, _ => .nan
  | _, .nan => .nan
  | .num a, .num b => .num (a - b)
  | .num _, .posInf => .negInf
  | .num _, .negInf => .posInf
  | .posInf, .num _ => .posInf
  | .negInf, .num _ => .negInf
  | .posInf, .posInf => .nan
  | .posInf, .negInf => .posInf
  | .negInf, .posInf => .negInf
  | .negInf, .negInf => .nan

/-- JavaScript `>` on idealised numbers (`NaN` compares false). -/
def jsGt : JsNum → JsNum → Bool
  | .nan, _ => false
  | _, .nan => false
  | .num a, .num b => decide (b < a)
  | .num _, .posInf => false
  | .num _, .negInf => true
  | .posInf, .num _ => true
  | .posInf, .posInf => false
  | .posInf, .negInf => true
  | .negInf, _ => false

/-- A4 page width in CSS pixels at 96 DPI (`const pageWidth = 794`). -/
def pageWidth : JsNum := .num 794

/-- A4 page height in CSS pixels at 96 DPI (`const pageHeight = 1123`). -/
def pageHeight : JsNum := .num 1123

/-- `const maxImageWidth = pageWidth`. -/
def maxImageWidth : JsNum := pageWidth

/-- `const maxImageHeight = pageHeight`. -/
def maxImageHeight : JsNum := pageHeight

/-- Per-page geometry computed inside the `imagesWithData.map` callback:
`imageWidth`, `imageHeight`, `leftPos`, `topPos` (App.js lines 163-180). -/
structure PageGeometry where
  renderW : JsNum
  renderH : JsNum
  offsetX : JsNum
  offsetY : JsNum
deriving DecidableEq, Repr

/-- The geometric fitter, transliterated from App.js lines 163-180:

```js
const aspectRatio = img.width / img.height;
let imageWidth = maxImageWidth;
let imageHeight = maxImageWidth / aspectRatio;
if (imageHeight > maxImageHeight) {
  imageHeight = maxImageHeight;
  imageWidth = maxImageHeight * aspectRatio;
}
const leftPos = (pageWidth - imageWidth) / 2;
const topPos = (pageHeight - imageHeight) / 2;
```
-/
def fit (imgW imgH : JsNum) : PageGeometry :=
  let aspectRatio := jsDiv imgW imgH
  let imageWidth := maxImageWidth
  let imageHeight := jsDiv maxImageWidth aspectRatio
  let p : JsNum × JsNum :=
    if jsGt imageHeight maxImageHeight then
      (jsMul maxImageHeight aspectRatio, maxImageHeight)
    else
      (imageWidth, imageHeight)
  { renderW := p.1, renderH := p.2,
    offsetX := jsDiv (jsSub pageWidth p.1) (.num 2),
    offsetY := jsDiv (jsSub pageHeight p.2) (.num 2) }

theorem jsDiv_num_num {a b : ℚ} (hb : b ≠ 0) :
    jsDiv (.num a) (.num b) = .num (a / b) := by
  simp [jsDiv, hb]

theorem jsGt_num_num (a b : ℚ) : jsGt (.num a) (.num b) = decide (b < a) := rfl

theorem jsMul_num_num (a b : ℚ) : jsMul (.num a) (.num b) = .num (a * b) := rfl

theorem jsSub_num_num (a b : ℚ) : jsSub (.num a) (.num b) = .num (a - b) := rfl

/-- On finite positive inputs the fitter computes exactly the two candidates
the spec describes; which one is chosen is decided by the height test. -/
theorem fit_num_pos {w h : ℚ} (hw : 0 < w) (hh : 0 < h) :
    fit (.num w) (.num h) =
      if 1123 < 794 / (w / h) then
        { renderW := .num (1123 * (w / h)), renderH := .num 1123,
          offsetX := .num ((794 - 1123 * (w / h)) / 2), offsetY := .num 0 }
      else
        { renderW := .num 794, renderH := .num (794 / (w / h)),
          offsetX := .num 0, offsetY := .num ((1123 - 794 / (w / h)) / 2) } := by
  have hh0 : h ≠ 0 := ne_of_gt hh
  have hr0 : w / h ≠ 0 := div_ne_zero (ne_of_gt hw) hh0
  have h2 : (2 : ℚ) ≠ 0 := by norm_num
  unfold fit maxImageWidth maxImageHeight pageWidth pageHeight
  by_cases hc : 1123 < 794 / (w / h)
  · simp only [jsDiv_num_num hh0, jsDiv_num_num hr0, jsGt_num_num,
      jsMul_num_num, jsSub_num_num, jsDiv_num_num h2, hc,
      decide_True, if_true]
    norm_num
  · simp only [jsDiv_num_num hh0, jsDiv_num_num hr0, jsGt_num_num,
      jsMul_num_num, jsSub_num_num, jsDiv_num_num h2, hc,
      decide_False, if_false]
    norm_num [jsSub_num_num, jsDiv_num_num h2]

/-- C1: for every image with positive width and height, the fitter with page
size 794×1123 returns finite `renderW ≤ 794` and `renderH ≤ 1123`, both
positive, with `renderW / renderH = imgW / imgH` (aspect ratio preserved
exactly in the idealised rational semantics), and at least one of
`renderW = 794` or `renderH = 1123` holds (exactly one candidate is chosen,
no independent stretching). -/
theorem fit_bounds_aspect (w h : ℚ) (hw : 0 < w) (hh : 0 < h) :
    ∃ rW rH : ℚ,
      (fit (.num w) (.num h)).renderW = .num rW ∧
      (fit (.num w) (.num h)).renderH = .num rH ∧
      0 < rW ∧ 0 < rH ∧ rW ≤ 794 ∧ rH ≤ 1123 ∧
      rW / rH = w / h ∧ (rW = 794 ∨ rH = 1123) := by
  have hr : 0 < w / h := div_pos hw hh
  rw [fit_num_pos hw hh]
  by_cases hc : 1123 < 794 / (w / h)
  · refine ⟨1123 * (w / h), 1123, by simp [hc], by simp [hc], by positivity,
      by norm_num, ?_, by norm_num, ?_, Or.inr rfl⟩
    · have := (lt_div_iff₀ hr).mp hc
      linarith
    · rw [mul_comm, mul_div_assoc]
      norm_num
  · have h794 : (794 : ℚ) ≠ 0 := by norm_num
    refine ⟨794, 794 / (w / h), by simp [hc], by simp [hc], by norm_num,
      by positivity, by norm_num, not_lt.mp hc, ?_, Or.inl rfl⟩
    rw [div_div_eq_mul_div, mul_comm, mul_div_assoc, div_self h794, mul_one]

/-- Witness for C1 at the spec's worked example, a landscape 800×600 image. -/
theorem fit_bounds_aspect_witness :
    (0 : ℚ) < 800 ∧ (0 : ℚ) < 600 ∧
      ∃ rW rH : ℚ,
        (fit (.num 800) (.num 600)).renderW = .num rW ∧
        (fit (.num 800) (.num 600)).renderH = .num rH ∧
        0 < rW ∧ 0 < rH ∧ rW ≤ 794 ∧ rH ≤ 1123 ∧
        rW / rH = 800 / 600 ∧ (rW = 794 ∨ rH = 1123) :=
  ⟨by norm_num, by norm_num, fit_bounds_aspect 800 600 (by norm_num) (by norm_num)⟩

/-- C4: for every fitter output on valid (positive-dimension) input,
`offsetX = (pageW - renderW) / 2` and `offsetY = (pageH - renderH) / 2`,
both offsets are nonnegative, and `offsetX * 2 + renderW = pageW` and
`offsetY * 2 + renderH = pageH` exactly — exact centering on both axes. -/
theorem fit_centering (w h : ℚ) (hw : 0 < w) (hh : 0 < h) :
    ∃ rW rH oX oY : ℚ,
      fit (.num w) (.num h) = ⟨.num rW, .num rH, .num oX, .num oY⟩ ∧
      oX = (794 - rW) / 2 ∧ oY = (1123 - rH) / 2 ∧
      0 ≤ oX ∧ 0 ≤ oY ∧ oX * 2 + rW = 794 ∧ oY * 2 + rH = 1123 := by
  have hr : 0 < w / h := div_pos hw hh
  rw [fit_num_pos hw hh]
  by_cases hc : 1123 < 794 / (w / h)
  · have hle : 1123 * (w / h) ≤ 794 := le_of_lt ((lt_div_iff₀ hr).mp hc)
    refine ⟨1123 * (w / h), 1123, (794 - 1123 * (w / h)) / 2, 0,
      by simp [hc], rfl, by norm_num, by linarith, le_refl 0, by ring, by norm_num⟩
  · have hle : 794 / (w / h) ≤ 1123 := not_lt.mp hc
    refine ⟨794, 794 / (w / h), 0, (1123 - 794 / (w / h)) / 2,
      by simp [hc], by norm_num, rfl, le_refl 0, by linarith, by norm_num, by ring⟩

/-- Witness for C4 at a portrait 600×800 image. -/
theorem fit_centering_witness :
    (0 : ℚ) < 600 ∧ (0 : ℚ) < 800 ∧
      ∃ rW rH oX oY : ℚ,
        fit (.num 600) (.num 800) = ⟨.num rW, .num rH, .num oX, .num oY⟩ ∧
        oX = (794 - rW) / 2 ∧ oY = (1123 - rH) / 2 ∧
        0 ≤ oX ∧ 0 ≤ oY ∧ oX * 2 + rW = 794 ∧ oY * 2 + rH = 1123 :=
  ⟨by norm_num, by norm_num, fit_centering 600 800 (by norm_num) (by norm_num)⟩

/-- An entry of the image registry (`images` state): created in `pickImages`
from a picker asset (`{id, uri, width, height}`, App.js lines 82-87).
Dimensions are modelled as exact rationals standing for JS numbers. -/
structure ImageAsset where
  id : String
  uri : String
  width : ℚ
  height : ℚ
deriving DecidableEq, Repr

/-- An image entry after the encoding step: the original fields plus the
`dataUri` added by the `images.map` callback (App.js lines 141-144). -/
structure EncodedImage where
  id : String
  uri : String
  width : ℚ
  height : ℚ
  dataUri : String
deriving DecidableEq, Repr

/-- MIME-type classification from App.js lines 136-139:

```js
let mimeType = 'image/jpeg';
if (img.uri.toLowerCase().includes('.png') || img.uri.toLowerCase().includes('png')) {
  mimeType = 'image/png';
}
```
-/
def mimeTypeOf (uri : String) : String :=
  if uri.toLower.containsSubstr ".png" || uri.toLower.containsSubstr "png" then
    "image/png"
  else
    "image/jpeg"

/-- One iteration of the `images.map(async (img, index) => ...)` callback
(App.js lines 124-149).  The external `FileSystem.readAsStringAsync` is the
oracle `read : uri → base64 text or error message`.  A read failure is
rethrown as `Failed to process image ${index + 1}: ${error.message}`. -/
def encodeImage (read : String → Except String String)
    (img : ImageAsset) (index : ℕ) : Except String EncodedImage :=
  match read img.uri with
  | .error e => .error ("Failed to process image " ++ toString (index + 1) ++ ": " ++ e)
  | .ok base64 =>
      .ok { id := img.id, uri := img.uri, width := img.width, height := img.height,
            dataUri := "data:" ++ mimeTypeOf img.uri ++ ";base64," ++ base64 }

/-- Sequential model of `await Promise.all(imageDataPromises)` (App.js line
152) starting from index `k`: succeeds with all encoded entries in order, or
fails with the error of the lowest-index failing entry.  (In JS the surfaced
rejection is the first to settle in time; with more than one failing read the
choice is timing-dependent, and the lowest index is the canonical
deterministic resolution.  Whether the run fails, and that the surfaced error
names a failing image, do not depend on this choice.) -/
def encodeAllAux (read : String → Except String String) :
    ℕ → List ImageAsset → Except String (List EncodedImage)
  | _, [] => .ok []
  | k, img :: rest =>
    match encodeImage read img k with
    | .error e => .error e
    | .ok enc =>
      match encodeAllAux read (k + 1) rest with
      | .error e => .error e
      | .ok encRest => .ok (enc :: encRest)

/-- The whole encoding step over the registry snapshot. -/
def encodeAll (read : String → Except String String)
    (images : List ImageAsset) : Except String (List EncodedImage) :=
  encodeAllAux read 0 images

/-- One page of the document description, the structured content of the HTML
block built per image (App.js lines 162-190): geometry from the fitter, the
inline payload, and whether `page-break-after: always;` is emitted.  The
string templating itself is abstracted; this record carries exactly the data
the template interpolates. -/
structure PageDesc where
  dataUri : String
  geometry : PageGeometry
  pageBreakAfter : Bool
deriving DecidableEq, Repr

/-- The page built for image `img` at position `index` of an `n`-image
document: `pageBreakAfter` is `index < imagesWithData.length - 1`
(App.js line 176). -/
def pageOf (img : EncodedImage) (index n : ℕ) : PageDesc :=
  { dataUri := img.dataUri,
    geometry := fit (.num img.width) (.num img.height),
    pageBreakAfter := decide (index < n - 1) }

/-- The `imagesWithData.map((img, index) => ...)` traversal with the running
index made explicit (`n` is the fixed length the callback closes over). -/
def composeAux (n : ℕ) : ℕ → List EncodedImage → List PageDesc
  | _, [] => []
  | k, img :: rest => pageOf img k n :: composeAux n (k + 1) rest

/-- The page composer: App.js lines 162-191 (the `.join('')` concatenation
into one HTML string is abstracted to the list of page descriptions). -/
def composePages (imgs : List EncodedImage) : List PageDesc :=
  composeAux imgs.length 0 imgs

/-- Outcome of one `generatePDF()` invocation. -/
inductive RunOutcome where
  | noImages
  | failed (message : String)
  | success (uri : String)
deriving DecidableEq, Repr

/-- Control-flow trace of one `generatePDF()` invocation: the outcome plus
which regions of the function body were reached — `setIsGenerating(true)`
(line 119), the encoding fan-out (lines 124-152), and the
`Print.printToFileAsync` call (line 235). -/
structure RunTrace where
  outcome : RunOutcome
  setGeneratingCalled : Bool
  encodingStarted : Bool
  renderingStarted : Bool
deriving DecidableEq, Repr

/-- The `generatePDF` pipeline (App.js lines 113-257).  Externals are
oracles: `read` is `FileSystem.readAsStringAsync`, `printToFile` is
`Print.printToFileAsync` consuming the document description (the backend of
the HTML serialization).  An empty registry returns early before
`setIsGenerating(true)` (lines 114-117); any thrown error is caught and
surfaced as `Failed to generate PDF: ${error.message}` (line 253); the
share/save step after rendering is fire-and-forget (its errors are caught
inside `savePDFAndroid`/`savePDFiOS` and do not change the outcome). -/
def generatePDF (read : String → Except String String)
    (printToFile : List PageDesc → Except String String)
    (images : List ImageAsset) : RunTrace :=
  if images.length = 0 then
    { outcome := .noImages, setGeneratingCalled := false,
      encodingStarted := false, renderingStarted := false }
  else
    match encodeAll read images with
    | .error e =>
        { outcome := .failed ("Failed to generate PDF: " ++ e),
          setGeneratingCalled := true, encodingStarted := true,
          renderingStarted := false }
    | .ok encoded =>
      match printToFile (composePages encoded) with
      | .error e =>
          { outcome := .failed ("Failed to generate PDF: " ++ e),
            setGeneratingCalled := true, encodingStarted := true,
            renderingStarted := true }
      | .ok uri =>
          { outcome := .success uri,
            setGeneratingCalled := true, encodingStarted := true,
            renderingStarted := true }

/-- The component state relevant to generation: the registry and the
`isGenerating` flag (App.js lines 22-23). -/
structure Session where
  images : List ImageAsset
  isGenerating : Bool
deriving DecidableEq, Repr

/-- Result of pressing the generate button. -/
inductive PressResult where
  | disabledNoCall
  | ran (trace : RunTrace)
deriving DecidableEq, Repr

/-- Pressing the "Generate PDF" button (App.js lines 414-430): the control
carries `disabled={isGenerating}`, so while a run is in flight the press
does not invoke `generatePDF` at all — it is neither queued nor interleaved
and no error value is produced.  Otherwise `generatePDF` runs to completion
and the `finally` block (line 255) leaves `isGenerating` false (the early
empty-registry return never set it). -/
def pressGenerate (read : String → Except String String)
    (printToFile : List PageDesc → Except String String)
    (s : Session) : Session × PressResult :=
  if s.isGenerating then
    (s, .disabledNoCall)
  else
    ({ images := s.images, isGenerating := false },
     .ran (generatePDF read printToFile s.images))

/-- `removeImage` (App.js lines 95-97):
`setImages((prev) => prev.filter((img) => img.id !== id))`. -/
def removeImage (images : List ImageAsset) (id : String) : List ImageAsset :=
  images.filter (fun img => img.id != id)

/-- `moveImageUp` (App.js lines 99-104): early return at index 0, otherwise
the destructuring swap with the element above.  The out-of-range fallthrough
(`match` misses) is unreachable at the call sites: the handler is only wired
to per-item buttons, so `0 ≤ index < images.length` always holds. -/
def moveImageUp {α : Type} (images : List α) (index : ℕ) : List α :=
  if index = 0 then images
  else
    match images[index]?, images[index - 1]? with
    | some a, some b => (images.set (index - 1) a).set index b
    | _, _ => images

/-- `moveImageDown` (App.js lines 106-111): early return at the last index,
otherwise the destructuring swap with the element below.  Same unreachable
out-of-range fallthrough as `moveImageUp`. -/
def moveImageDown {α : Type} (images : List α) (index : ℕ) : List α :=
  if index = images.length - 1 then images
  else
    match images[index]?, images[index + 1]? with
    | some a, some b => (images.set index b).set (index + 1) a
    | _, _ => images

/-- On a zero-height, positive-width input the fitter does not reject: the
aspect-ratio division yields `Infinity`, the width-constrained candidate's
height `794 / Infinity` is `0`, the height test fails, and the geometry
`renderW = 794, renderH = 0, offsetX = 0, offsetY = 1123 / 2` is returned. -/
theorem fit_zero_height {w : ℚ} (hw : 0 < w) :
    fit (.num w) (.num 0) =
      { renderW := .num 794, renderH := .num 0,
        offsetX := .num 0, offsetY := .num (1123 / 2) } := by
  have hw0 : w ≠ 0 := ne_of_gt hw
  unfold fit maxImageWidth maxImageHeight pageWidth pageHeight
  norm_num [jsDiv, jsGt, jsSub, hw0, hw]

/-- C7: with an empty registry, `generatePDF` returns before entering the
pipeline: the outcome is the no-images alert (not a failure), the
`isGenerating` flag is never set, encoding never starts, rendering never
starts, and a button press on an idle session leaves the session unchanged. -/
theorem generatePDF_empty (read : String → Except String String)
    (printToFile : List PageDesc → Except String String) :
    generatePDF read printToFile [] =
      { outcome := .noImages, setGeneratingCalled := false,
        encodingStarted := false, renderingStarted := false } ∧
    pressGenerate read printToFile { images := [], isGenerating := false } =
      ({ images := [], isGenerating := false },
       .ran { outcome := .noImages, setGeneratingCalled := false,
              encodingStarted := false, renderingStarted := false }) :=
  ⟨rfl, rfl⟩

/-- C2 counterexample: the claim "a pipeline run containing a zero-height
image reaches Failed and never reaches Rendering, and the Fitter rejects the
input before any geometry computation" is false on the code.  With one
100×0 image and collaborators that succeed, the run reaches the
`Print.printToFileAsync` call and completes successfully, and the fitter
silently returns `renderW = 794, renderH = 0`. -/
theorem zero_height_reaches_rendering :
    (generatePDF (fun _ => Except.ok "QUJD") (fun _ => Except.ok "file.pdf")
        [{ id := "1", uri := "a.jpg", width := 100, height := 0 }]).renderingStarted
      = true ∧
    (generatePDF (fun _ => Except.ok "QUJD") (fun _ => Except.ok "file.pdf")
        [{ id := "1", uri := "a.jpg", width := 100, height := 0 }]).outcome
      = RunOutcome.success "file.pdf" ∧
    fit (.num 100) (.num 0) =
      { renderW := .num 794, renderH := .num 0,
        offsetX := .num 0, offsetY := .num (1123 / 2) } :=
  ⟨rfl, rfl, fit_zero_height (by norm_num)⟩

/-- C2 amended: for `imgH = 0` with `imgW > 0` the code performs no
validation and never raises: the fitter silently divides (the aspect ratio
is `Infinity`), returns the degenerate geometry `renderW = 794, renderH = 0`,
and a pipeline run containing such an image proceeds to Rendering and — if
the external collaborators succeed — to a successful outcome, never to
Failed. -/
theorem zero_height_no_reject (w : ℚ) (hw : 0 < w)
    (img : ImageAsset) (hbw : img.width = w) (hbh : img.height = 0)
    (read : String → Except String String)
    (printToFile : List PageDesc → Except String String)
    (b uri : String)
    (hread : read img.uri = .ok b)
    (hprint : ∀ d, printToFile d = .ok uri) :
    fit (.num img.width) (.num img.height) =
      { renderW := .num 794, renderH := .num 0,
        offsetX := .num 0, offsetY := .num (1123 / 2) } ∧
    (generatePDF read printToFile [img]).renderingStarted = true ∧
    (generatePDF read printToFile [img]).outcome = .success uri := by
  refine ⟨by rw [hbw, hbh]; exact fit_zero_height hw, ?_, ?_⟩ <;>
    simp [generatePDF, encodeAll, encodeAllAux, encodeImage, hread, hprint]

/-- Witness for the amended C2 at a concrete 100×0 image with succeeding
collaborators. -/
theorem zero_height_no_reject_witness :
    (0 : ℚ) < 100 ∧
    (fit (.num (ImageAsset.mk "1" "a.jpg" 100 0).width)
        (.num (ImageAsset.mk "1" "a.jpg" 100 0).height) =
      { renderW := .num 794, renderH := .num 0,
        offsetX := .num 0, offsetY := .num (1123 / 2) } ∧
    (generatePDF (fun _ => Except.ok "QUJD") (fun _ => Except.ok "out.pdf")
        [{ id := "1", uri := "a.jpg", width := 100, height := 0 }]).renderingStarted
      = true ∧
    (generatePDF (fun _ => Except.ok "QUJD") (fun _ => Except.ok "out.pdf")
        [{ id := "1", uri := "a.jpg", width := 100, height := 0 }]).outcome
      = .success "out.pdf") :=
  ⟨by norm_num,
   zero_height_no_reject 100 (by norm_num)
     { id := "1", uri := "a.jpg", width := 100, height := 0 } rfl rfl
     (fun _ => Except.ok "QUJD") (fun _ => Except.ok "out.pdf")
     "QUJD" "out.pdf" rfl (fun _ => rfl)⟩

/-- C3 counterexample: the claim "a second `generate()` call while a run is
in flight is rejected with `ConcurrentGenerationError`" is false on the
code: no such error exists anywhere.  At a concrete in-flight state the
press is silently ignored — the disabled button never invokes `generatePDF`,
so no error value of any kind is produced and the state is untouched. -/
theorem press_concurrent_no_error :
    (pressGenerate (fun _ => Except.ok "QUJD") (fun _ => Except.ok "file.pdf")
        { images := [{ id := "1", uri := "a.jpg", width := 10, height := 10 }],
          isGenerating := true }).2 = PressResult.disabledNoCall ∧
    (pressGenerate (fun _ => Except.ok "QUJD") (fun _ => Except.ok "file.pdf")
        { images := [{ id := "1", uri := "a.jpg", width := 10, height := 10 }],
          isGenerating := true }).1 =
      { images := [{ id := "1", uri := "a.jpg", width := 10, height := 10 }],
        isGenerating := true } :=
  ⟨rfl, rfl⟩

/-- C3 amended: while a run is in flight (`isGenerating = true`), a press of
the generate control does not invoke `generatePDF` at all — it is ignored
via the `disabled={isGenerating}` attribute, producing no error value,
queueing nothing and interleaving nothing, and leaving the session state
(and hence the in-flight run, a pure function of its snapshot) unaffected.
`generatePDF` itself contains no re-entrancy guard; the rejection exists
only at the UI layer. -/
theorem press_while_generating (read : String → Except String String)
    (printToFile : List PageDesc → Except String String)
    (s : Session) (h : s.isGenerating = true) :
    pressGenerate read printToFile s = (s, .disabledNoCall) := by
  simp [pressGenerate, h]

/-- Witness for the amended C3 at a concrete in-flight session. -/
theorem press_while_generating_witness :
    (Session.mk [{ id := "1", uri := "a.jpg", width := 10, height := 10 }]
        true).isGenerating = true ∧
    pressGenerate (fun _ => Except.ok "") (fun _ => Except.ok "")
      (Session.mk [{ id := "1", uri := "a.jpg", width := 10, height := 10 }] true)
      = (Session.mk [{ id := "1", uri := "a.jpg", width := 10, height := 10 }] true,
         .disabledNoCall) :=
  ⟨rfl,
   press_while_generating (fun _ => Except.ok "") (fun _ => Except.ok "")
     (Session.mk [{ id := "1", uri := "a.jpg", width := 10, height := 10 }] true)
     rfl⟩

theorem composeAux_length (n : ℕ) :
    ∀ (k : ℕ) (imgs : List EncodedImage),
      (composeAux n k imgs).length = imgs.length := by
  intro k imgs
  induction imgs generalizing k with
  | nil => rfl
  | cons img rest ih => simp [composeAux, ih]

theorem composeAux_getElem? (n : ℕ) :
    ∀ (imgs : List EncodedImage) (k j : ℕ),
      (composeAux n k imgs)[j]? = imgs[j]?.map (fun img => pageOf img (k + j) n) := by
  intro imgs
  induction imgs with
  | nil => intro k j; simp [composeAux]
  | cons img rest ih =>
    intro k j
    cases j with
    | zero => simp [composeAux]
    | succ j' =>
      simp only [composeAux, List.getElem?_cons_succ]
      rw [ih (k + 1) j']
      have harith : k + 1 + j' = k + (j' + 1) := by omega
      rw [harith]

/-- C5: the page composer is a pure function of the ordered encoded-image
list (and the fixed 794×1123 page spec): it produces exactly `N` page
descriptions — `N` the input length — in input order, where page `j` is
built from input entry `j` alone (its data URI, its fitted geometry) and
carries `pageBreakAfter = (j < N - 1)`, true for every page except the
last.  Determinism is inherent: `composePages` is a function of the list. -/
theorem composePages_spec (imgs : List EncodedImage) (j : ℕ) :
    (composePages imgs).length = imgs.length ∧
    (composePages imgs)[j]? =
      imgs[j]?.map (fun img => pageOf img j imgs.length) ∧
    ∀ (h : j < imgs.length),
      (composePages imgs)[j]? =
        some { dataUri := imgs[j].dataUri,
               geometry := fit (.num imgs[j].width) (.num imgs[j].height),
               pageBreakAfter := decide (j < imgs.length - 1) } := by
  refine ⟨composeAux_length imgs.length 0 imgs, ?_, ?_⟩
  · simpa using composeAux_getElem? imgs.length imgs 0 j
  · intro h
    have hmap := composeAux_getElem? imgs.length imgs 0 j
    rw [composePages, hmap, List.getElem?_eq_getElem h]
    simp [pageOf]

/-- Witness for C5 on a concrete two-image document: two pages, in order,
with a page break after the first page only. -/
theorem composePages_spec_witness :
    (composePages
        [EncodedImage.mk "1" "a.jpg" 800 600 "d1",
         EncodedImage.mk "2" "b.png" 600 800 "d2"]).length = 2 ∧
    (composePages
        [EncodedImage.mk "1" "a.jpg" 800 600 "d1",
         EncodedImage.mk "2" "b.png" 600 800 "d2"])[0]? =
      some { dataUri := "d1", geometry := fit (.num 800) (.num 600),
             pageBreakAfter := true } ∧
    (composePages
        [EncodedImage.mk "1" "a.jpg" 800 600 "d1",
         EncodedImage.mk "2" "b.png" 600 800 "d2"])[1]? =
      some { dataUri := "d2", geometry := fit (.num 600) (.num 800),
             pageBreakAfter := false } := by
  have h0 := composePages_spec
    [EncodedImage.mk "1" "a.jpg" 800 600 "d1",
     EncodedImage.mk "2" "b.png" 600 800 "d2"] 0
  have h1 := composePages_spec
    [EncodedImage.mk "1" "a.jpg" 800 600 "d1",
     EncodedImage.mk "2" "b.png" 600 800 "d2"] 1
  refine ⟨h0.1, ?_, ?_⟩
  · have := h0.2.2 (by norm_num)
    simpa using this
  · have := h1.2.2 (by norm_num)
    simpa using this

theorem encodeAllAux_fails (read : String → Except String String) :
    ∀ (imgs : List ImageAsset) (k i : ℕ) (img : ImageAsset) (c : String),
      imgs[i]? = some img → read img.uri = .error c →
      ∃ (j : ℕ) (img2 : ImageAsset) (cause : String),
        imgs[j]? = some img2 ∧ read img2.uri = .error cause ∧
        encodeAllAux read k imgs =
          .error ("Failed to process image " ++ toString (k + j + 1) ++ ": " ++ cause) := by
  intro imgs
  induction imgs with
  | nil => intro k i img c hi; simp at hi
  | cons x rest ih =>
    intro k i img c hi hread
    cases hx : read x.uri with
    | error c0 =>
        exact ⟨0, x, c0, by simp, hx, by simp [encodeAllAux, encodeImage, hx]⟩
    | ok b =>
        cases i with
        | zero =>
            rw [List.getElem?_cons_zero, Option.some_inj] at hi
            rw [hi] at hx
            rw [hx] at hread
            exact absurd hread (by simp)
        | succ i' =>
            rw [List.getElem?_cons_succ] at hi
            obtain ⟨j', img2, cause, h1, h2, h3⟩ := ih (k + 1) i' img c hi hread
            refine ⟨j' + 1, img2, cause, by simpa using h1, h2, ?_⟩
            have harith : k + 1 + j' + 1 = k + (j' + 1) + 1 := by omega
            rw [harith] at h3
            simp [encodeAllAux, encodeImage, hx, h3]

/-- C6: if reading any single image fails during encoding, the whole run
fails — the outcome is `Failed`, rendering is never reached, and no document
is produced — and the surfaced error names the position (1-based index) of a
failing image together with the underlying cause.  (When several reads fail,
`Promise.all` surfaces the first rejection to settle; the model resolves
this to the lowest failing index.) -/
theorem generatePDF_fails_on_encode_error
    (read : String → Except String String)
    (printToFile : List PageDesc → Except String String)
    (images : List ImageAsset) (i : ℕ) (img : ImageAsset) (c : String)
    (hi : images[i]? = some img) (hread : read img.uri = .error c) :
    ∃ (j : ℕ) (img2 : ImageAsset) (cause : String),
      images[j]? = some img2 ∧ read img2.uri = .error cause ∧
      generatePDF read printToFile images =
        { outcome := .failed ("Failed to generate PDF: " ++
            ("Failed to process image " ++ toString (j + 1) ++ ": " ++ cause)),
          setGeneratingCalled := true, encodingStarted := true,
          renderingStarted := false } := by
  have hlen : images.length ≠ 0 := by
    intro h0
    rw [List.getElem?_eq_none (by omega)] at hi
    exact Option.noConfusion hi
  obtain ⟨j, img2, cause, h1, h2, h3⟩ :=
    encodeAllAux_fails read images 0 i img c hi hread
  rw [Nat.zero_add] at h3
  exact ⟨j, img2, cause, h1, h2, by simp [generatePDF, hlen, encodeAll, h3]⟩

/-- Witness for C6: a single image whose read fails with cause `boom`; the
run fails with the message naming image 1 and the cause. -/
theorem generatePDF_fails_witness :
    ([ImageAsset.mk "1" "a.jpg" 10 10])[0]? = some (ImageAsset.mk "1" "a.jpg" 10 10) ∧
    ((fun _ => Except.error "boom" :
        String → Except String String) (ImageAsset.mk "1" "a.jpg" 10 10).uri
      = .error "boom") ∧
    ∃ (j : ℕ) (img2 : ImageAsset) (cause : String),
      ([ImageAsset.mk "1" "a.jpg" 10 10])[j]? = some img2 ∧
      (fun _ => Except.error "boom" : String → Except String String) img2.uri
        = .error cause ∧
      generatePDF (fun _ => Except.error "boom")
          (fun _ => Except.ok "out.pdf") [ImageAsset.mk "1" "a.jpg" 10 10] =
        { outcome := .failed ("Failed to generate PDF: " ++
            ("Failed to process image " ++ toString (j + 1) ++ ": " ++ cause)),
          setGeneratingCalled := true, encodingStarted := true,
          renderingStarted := false } :=
  ⟨rfl, rfl,
   generatePDF_fails_on_encode_error (fun _ => Except.error "boom")
     (fun _ => Except.ok "out.pdf") [ImageAsset.mk "1" "a.jpg" 10 10]
     0 (ImageAsset.mk "1" "a.jpg" 10 10) "boom" rfl rfl⟩

theorem moveImageUp_eq_set {α : Type} (l : List α) (i : ℕ)
    (h0 : 0 < i) (hi : i < l.length) :
    moveImageUp l i = (l.set (i - 1) l[i]).set i (l.get ⟨i - 1, by omega⟩) := by
  have h1 : l[i]? = some l[i] := List.getElem?_eq_getElem hi
  have h2 : l[i - 1]? = some (l.get ⟨i - 1, by omega⟩) :=
    List.getElem?_eq_getElem (by omega)
  rw [moveImageUp, if_neg (by omega), h1, h2]

theorem moveImageDown_eq_set {α : Type} (l : List α) (i : ℕ)
    (hi : i + 1 < l.length) :
    moveImageDown l i = (l.set i l[i + 1]).set (i + 1) (l.get ⟨i, by omega⟩) := by
  have h1 : l[i]? = some (l.get ⟨i, by omega⟩) := List.getElem?_eq_getElem (by omega)
  have h2 : l[i + 1]? = some l[i + 1] := List.getElem?_eq_getElem hi
  rw [moveImageDown, if_neg (by omega), h1, h2]

theorem moveImageUp_getElem? {α : Type} (l : List α) (i : ℕ)
    (h0 : 0 < i) (hi : i < l.length) (j : ℕ) :
    (moveImageUp l i)[j]? =
      if j = i - 1 then l[i]? else if j = i then l[i - 1]? else l[j]? := by
  rw [moveImageUp_eq_set l i h0 hi]
  by_cases hji : j = i
  · subst hji
    rw [if_neg (by omega), if_pos rfl,
      List.getElem?_set_self (by simpa using hi),
      List.getElem?_eq_getElem (show j - 1 < l.length by omega)]
    simp [List.get_eq_getElem]
  · by_cases hjp : j = i - 1
    · subst hjp
      rw [if_pos rfl, List.getElem?_set_ne (by omega),
        List.getElem?_set_self (by simpa using (show i - 1 < l.length by omega)),
        List.getElem?_eq_getElem hi]
    · rw [if_neg hjp, if_neg hji, List.getElem?_set_ne (by omega),
        List.getElem?_set_ne (by omega)]

theorem moveImageDown_getElem? {α : Type} (l : List α) (i : ℕ)
    (hi : i + 1 < l.length) (j : ℕ) :
    (moveImageDown l i)[j]? =
      if j = i then l[i + 1]? else if j = i + 1 then l[i]? else l[j]? := by
  rw [moveImageDown_eq_set l i hi]
  by_cases hji : j = i
  · subst hji
    rw [if_pos rfl, List.getElem?_set_ne (by omega),
      List.getElem?_set_self (by simpa using (show j < l.length by omega)),
      List.getElem?_eq_getElem hi]
  · by_cases hjs : j = i + 1
    · subst hjs
      rw [if_neg hji, if_pos rfl,
        List.getElem?_set_self (by simpa using hi),
        List.getElem?_eq_getElem (show i < l.length by omega)]
      simp [List.get_eq_getElem]
    · rw [if_neg hji, if_neg hjs, List.getElem?_set_ne (by omega),
        List.getElem?_set_ne (by omega)]

/-- C8: `moveImageUp 0` and `moveImageDown (last index)` are no-ops that
leave the list unchanged (and, being total functions, cannot throw); for an
interior index, `moveImageUp i` exchanges the element at `i` with its
immediate predecessor and `moveImageDown i` (when `i` is not the last index)
exchanges the element at `i` with its immediate successor, leaving every
other position — and the length — unchanged. -/
theorem moveImage_spec {α : Type} (l : List α) (i j : ℕ)
    (h0 : 0 < i) (hi : i < l.length) :
    moveImageUp l 0 = l ∧
    moveImageDown l (l.length - 1) = l ∧
    (moveImageUp l i).length = l.length ∧
    (moveImageUp l i)[j]? =
      (if j = i - 1 then l[i]? else if j = i then l[i - 1]? else l[j]?) ∧
    (i + 1 < l.length →
      (moveImageDown l i).length = l.length) ∧
    (i + 1 < l.length →
      (moveImageDown l i)[j]? =
        (if j = i then l[i + 1]? else if j = i + 1 then l[i]? else l[j]?)) := by
  refine ⟨by rw [moveImageUp, if_pos rfl],
    by rw [moveImageDown, if_pos rfl],
    by rw [moveImageUp_eq_set l i h0 hi]; simp,
    moveImageUp_getElem? l i h0 hi j,
    fun hlast => by rw [moveImageDown_eq_set l i hlast]; simp,
    fun hlast => moveImageDown_getElem? l i hlast j⟩

/-- Witness for C8 on the concrete list `[1, 2, 3]`: moving index 1 up swaps
positions 0 and 1; moving index 1 down swaps positions 1 and 2; boundary
calls leave the list unchanged. -/
theorem moveImage_spec_witness :
    moveImageUp ([1, 2, 3] : List ℕ) 0 = [1, 2, 3] ∧
    moveImageDown ([1, 2, 3] : List ℕ) 2 = [1, 2, 3] ∧
    (moveImageUp ([1, 2, 3] : List ℕ) 1)[0]? = some 2 ∧
    (moveImageUp ([1, 2, 3] : List ℕ) 1)[1]? = some 1 ∧
    (moveImageDown ([1, 2, 3] : List ℕ) 1)[1]? = some 3 ∧
    (moveImageDown ([1, 2, 3] : List ℕ) 1)[2]? = some 2 := by
  have hA := moveImage_spec ([1, 2, 3] : List ℕ) 1 0 (by decide) (by decide)
  have hB := moveImage_spec ([1, 2, 3] : List ℕ) 1 1 (by decide) (by decide)
  have hC := moveImage_spec ([1, 2, 3] : List ℕ) 1 2 (by decide) (by decide)
  refine ⟨hA.1, hA.2.1, ?_, ?_, ?_, ?_⟩
  · have := hA.2.2.2.1
    simpa using this
  · have := hB.2.2.2.1
    simpa using this
  · have := hB.2.2.2.2.2 (by decide)
    simpa using this
  · have := hC.2.2.2.2.2 (by decide)
    simpa using this

/-- C9: `removeImage id` removes the (unique) entry whose id matches while
preserving the relative order of every other entry, and is a no-op when no
entry carries that id.  (The code filters out *all* matching entries; under
the registry's unique-id discipline, stated here as the hypotheses that no
other entry matches, this is exactly removal of the single match.) -/
theorem removeImage_spec (images : List ImageAsset) (id : String) :
    ((∀ img ∈ images, img.id ≠ id) → removeImage images id = images) ∧
    (∀ (pre : List ImageAsset) (x : ImageAsset) (post : List ImageAsset),
      images = pre ++ x :: post → x.id = id →
      (∀ y ∈ pre, y.id ≠ id) → (∀ y ∈ post, y.id ≠ id) →
      removeImage images id = pre ++ post) := by
  constructor
  · intro habs
    rw [removeImage, List.filter_eq_self]
    intro a ha
    simpa using habs a ha
  · intro pre x post heq hx hpre hpost
    subst heq
    have h1 : pre.filter (fun img => img.id != id) = pre := by
      rw [List.filter_eq_self]; intro a ha; simpa using hpre a ha
    have h2 : post.filter (fun img => img.id != id) = post := by
      rw [List.filter_eq_self]; intro a ha; simpa using hpost a ha
    rw [removeImage, List.filter_append, h1,
      List.filter_cons_of_neg (by simp [hx]), h2]

/-- Witness for C9 on a concrete two-entry registry: removing id "2" deletes
exactly the second entry; removing an absent id "9" is a no-op. -/
theorem removeImage_spec_witness :
    removeImage [ImageAsset.mk "1" "a.jpg" 1 1, ImageAsset.mk "2" "b.jpg" 2 2] "2"
      = [ImageAsset.mk "1" "a.jpg" 1 1] ∧
    removeImage [ImageAsset.mk "1" "a.jpg" 1 1, ImageAsset.mk "2" "b.jpg" 2 2] "9"
      = [ImageAsset.mk "1" "a.jpg" 1 1, ImageAsset.mk "2" "b.jpg" 2 2] := by
  have h2 := removeImage_spec
    [ImageAsset.mk "1" "a.jpg" 1 1, ImageAsset.mk "2" "b.jpg" 2 2] "2"
  have h9 := removeImage_spec
    [ImageAsset.mk "1" "a.jpg" 1 1, ImageAsset.mk "2" "b.jpg" 2 2] "9"
  constructor
  · have := h2.2 [ImageAsset.mk "1" "a.jpg" 1 1] (ImageAsset.mk "2" "b.jpg" 2 2) []
      rfl rfl (by intro y hy; simp at hy; subst hy; decide) (by intro y hy; simp at hy)
    simpa using this
  · exact h9.1 (by intro y hy; simp at hy; rcases hy with h | h <;> subst h <;> decide)

theorem set_swap_perm {α : Type} :
    ∀ (l : List α) (k : ℕ) (a b : α),
      l[k]? = some a → l[k + 1]? = some b →
      ((l.set k b).set (k + 1) a).Perm l := by
  intro l
  induction l with
  | nil => intro k a b h1 _; simp at h1
  | cons x t ih =>
    intro k a b h1 h2
    cases k with
    | zero =>
      cases t with
      | nil => simp at h2
      | cons y t' =>
        have hx : x = a := by simpa using h1
        have hy : y = b := by simpa using h2
        simp only [List.set_cons_zero, List.set_cons_succ]
        rw [← hx, ← hy]
        exact List.Perm.swap x y t'
    | succ k' =>
      rw [List.getElem?_cons_succ] at h1 h2
      simpa using List.Perm.cons x (ih k' a b h1 h2)

theorem moveImageUp_perm {α : Type} (l : List α) (i : ℕ) :
    (moveImageUp l i).Perm l := by
  rw [moveImageUp]
  by_cases h0 : i = 0
  · rw [if_pos h0]
  · rw [if_neg h0]
    cases h1 : l[i]? with
    | none => exact List.Perm.refl l
    | some a =>
      cases h2 : l[i - 1]? with
      | none => exact List.Perm.refl l
      | some b =>
        have hk : i - 1 + 1 = i := by omega
        have h1' : l[i - 1 + 1]? = some a := by rw [hk]; exact h1
        have hperm := set_swap_perm l (i - 1) b a h2 h1'
        rw [hk] at hperm
        exact hperm

theorem moveImageDown_perm {α : Type} (l : List α) (i : ℕ) :
    (moveImageDown l i).Perm l := by
  rw [moveImageDown]
  by_cases hlast : i = l.length - 1
  · rw [if_pos hlast]
  · rw [if_neg hlast]
    cases h1 : l[i]? with
    | none => exact List.Perm.refl l
    | some a =>
      cases h2 : l[i + 1]? with
      | none => exact List.Perm.refl l
      | some b => exact set_swap_perm l i a b h1 h2

/-- C10: for every interior index `i` (with `0 < i < length`), `moveImageUp
i` followed by `moveImageDown (i-1)` restores the original list exactly, and
both operations — at every index — preserve the multiset of elements. -/
theorem move_roundtrip_multiset {α : Type} (l : List α) (i : ℕ)
    (h0 : 0 < i) (hi : i < l.length) :
    moveImageDown (moveImageUp l i) (i - 1) = l ∧
    (∀ k, (↑(moveImageUp l k) : Multiset α) = (↑l : Multiset α)) ∧
    (∀ k, (↑(moveImageDown l k) : Multiset α) = (↑l : Multiset α)) := by
  refine ⟨?_, fun k => Multiset.coe_eq_coe.mpr (moveImageUp_perm l k),
    fun k => Multiset.coe_eq_coe.mpr (moveImageDown_perm l k)⟩
  have hlen : (moveImageUp l i).length = l.length := by
    rw [moveImageUp_eq_set l i h0 hi]; simp
  have hdown : i - 1 + 1 < (moveImageUp l i).length := by omega
  apply List.ext_getElem?
  intro j
  rw [moveImageDown_getElem? (moveImageUp l i) (i - 1) hdown j]
  have hup := moveImageUp_getElem? l i h0 hi
  have hsucc : i - 1 + 1 = i := by omega
  by_cases hj1 : j = i - 1
  · rw [if_pos hj1, hsucc, hup i, if_neg (by omega), if_pos rfl, hj1]
  · by_cases hj2 : j = i
    · rw [if_neg hj1, hsucc, if_pos hj2, hup (i - 1), if_pos rfl, hj2]
    · rw [if_neg hj1, hsucc, if_neg hj2, hup j, if_neg hj1, if_neg hj2]

/-- Witness for C10 on the concrete list `[1, 2, 3]` at interior index 1. -/
theorem move_roundtrip_multiset_witness :
    moveImageDown (moveImageUp ([1, 2, 3] : List ℕ) 1) 0 = [1, 2, 3] ∧
    (↑(moveImageUp ([1, 2, 3] : List ℕ) 2) : Multiset ℕ) = ↑([1, 2, 3] : List ℕ) ∧
    (↑(moveImageDown ([1, 2, 3] : List ℕ) 0) : Multiset ℕ) = ↑([1, 2, 3] : List ℕ) := by
  have h := move_roundtrip_multiset ([1, 2, 3] : List ℕ) 1 (by decide) (by decide)
  exact ⟨h.1, h.2.1 2, h.2.2 0⟩
